import Mathlib

/-!
Verification of the Green Ghost Index pipeline.

Shallow embedding of the repository's analytical core:
`data_pipeline.py` (loading / column normalization / merging),
`satellite_audit.py` (labeling), `model_builder.py` (training, imputation,
scoring, final index) and `impact_analysis.py` (portfolio aggregation).

Floating-point numbers of the source are modelled as rationals, `NaN`
(missing) cells as `none` of an `Option`.  A pandas `DataFrame` is a list
of records.  External collaborators (the Earth-engine query, numpy's seeded
random draw, `train_test_split`'s shuffle, the random-forest fitting) are
parameters of the embedding: a per-row metric list, a test-membership
predicate on row positions, and a fitting function producing the forest's
trees; a fitted forest predicts the probability of class 1 as the fraction
of its trees that vote 1, exactly the contract used by the pipeline.
-/

namespace GreenGhost

/-! ## Data model -/

/-- One row of the GEM inventory table (the base project list) after the
renames of `create_master_data` step 2 (`data_pipeline.py`, lines 36-44). -/
structure GemRow where
  project_name : String
  country : String
  funded_capacity_mw : Option ℚ
  project_type : String
  start_year : Option ℚ
  latitude : Option ℚ
  longitude : Option ℚ
  gem_status : String
  deriving DecidableEq

/-- One row of the TI corruption-index table after the rename of
`create_master_data` step 3 (`data_pipeline.py`, line 47). -/
structure TiRow where
  country : String
  cpi_score : Option ℚ
  deriving DecidableEq

/-- One row of the raw ADB financing table after the rename of
`create_master_data` step 4 (`data_pipeline.py`, line 52). -/
structure AdbRow where
  country : String
  total_loan_usd : Option ℚ
  deriving DecidableEq

/-- One row of the master table: the fixed column order of
`create_master_data` (`data_pipeline.py`, lines 66-69) together with the
two columns the later stages append (`ndvi_change_metric`,
`ghost_risk_score`), absent (`none`) until those stages run. -/
structure MasterRow where
  project_id : Option ℚ
  project_name : String
  country : String
  latitude : Option ℚ
  longitude : Option ℚ
  total_loan_usd : Option ℚ
  start_year : Option ℚ
  funded_capacity_mw : Option ℚ
  project_type : String
  cpi_score : Option ℚ
  rule_of_law_score : Option ℚ
  is_ghost : Option ℚ
  audit_status : Option String
  gem_status : String
  ndvi_change_metric : Option ℚ
  ghost_risk_score : Option ℚ
  deriving DecidableEq

/-! ## Column normalization (`load_data`, `data_pipeline.py` line 20)

`df.columns.str.lower().str.replace(' ', '_').str.strip()`: lower-case,
then replace every space by an underscore, then strip surrounding
whitespace — in that order.  Column names are modelled as `List Char`. -/

/-- Embeds `str.lower()` on a column name. -/
def lowerName (s : List Char) : List Char := s.map Char.toLower

/-- Embeds `str.replace` of a space by an underscore on a column name: the pattern is a single
character, so the replacement is a character-wise map. -/
def replaceSpaces (s : List Char) : List Char :=
  s.map (fun c => if c = ' ' then '_' else c)

/-- Embeds `str.strip()` on a column name: drop leading and trailing whitespace. -/
def trimName (s : List Char) : List Char :=
  ((s.dropWhile Char.isWhitespace).reverse.dropWhile Char.isWhitespace).reverse

/-- The column normalization of `load_data`: lower-case, then replace
spaces, then strip — the order of the chained pandas calls on line 20. -/
def normalizeCol (s : List Char) : List Char :=
  trimName (replaceSpaces (lowerName s))

/-- The function `load_data` applies `normalizeCol` to every column name of the table it
returns, whatever the source file. -/
def load_data_cols (cols : List (List Char)) : List (List Char) :=
  cols.map normalizeCol

/-- Modelled from the spec (§4.1): the normalization the spec describes —
surrounding whitespace trimmed, internal spaces replaced — which trims
before the replacement can turn surrounding spaces into underscores. -/
def normalizeColSpec (s : List Char) : List Char :=
  replaceSpaces (lowerName (trimName s))

/-! ## The merge (`create_master_data`, `data_pipeline.py` lines 24-75) -/

/-- Mean of a column ignoring missing values, the semantics of both
`X_train.mean()` and `groupby(...).mean()`: `none` when no value is
present (pandas yields `NaN` there). -/
def colMean (xs : List (Option ℚ)) : Option ℚ :=
  let vs := xs.filterMap id
  if vs.length = 0 then none else some (vs.sum / (vs.length : ℚ))

/-- Embeds a left `pd.merge` on `key` where `tbl` carries one value
column: every base row is kept; a base row is emitted once per matching
`tbl` row, or once with a missing value when nothing matches. -/
def leftJoinCol (base : List α) (key : α → String) (tbl : List (String × Option ℚ)) :
    List (α × Option ℚ) :=
  match base with
  | [] => []
  | b :: rest =>
    (let ms := tbl.filter (fun t => t.1 == key b)
     if ms.isEmpty then [(b, none)] else ms.map (fun t => (b, t.2)))
      ++ leftJoinCol rest key tbl

/-- Embeds the country grouping `adb_df.groupby.mean` of the ADB loans
(`data_pipeline.py` line 53): one row per distinct country, carrying the
country's mean loan (missing values ignored). -/
def adb_loans (adb : List AdbRow) : List (String × Option ℚ) :=
  ((adb.map AdbRow.country).dedup).map (fun c =>
    (c, colMean ((adb.filter (fun a => a.country == c)).map AdbRow.total_loan_usd)))

/-- The function `create_master_data`: the GEM inventory is the base list; the TI table
and the per-country ADB aggregate are left-joined onto it on `country`;
placeholder columns are set missing (`data_pipeline.py` lines 43-69). -/
def create_master_data (gem : List GemRow) (ti : List TiRow) (adb : List AdbRow) :
    List MasterRow :=
  let step1 := leftJoinCol gem GemRow.country (ti.map (fun t => (t.country, t.cpi_score)))
  let step2 := leftJoinCol step1 (fun p => p.1.country) (adb_loans adb)
  step2.map (fun p =>
    { project_id := none
      project_name := p.1.1.project_name
      country := p.1.1.country
      latitude := p.1.1.latitude
      longitude := p.1.1.longitude
      total_loan_usd := p.2
      start_year := p.1.1.start_year
      funded_capacity_mw := p.1.1.funded_capacity_mw
      project_type := p.1.1.project_type
      cpi_score := p.1.2
      rule_of_law_score := none
      is_ghost := none
      audit_status := none
      gem_status := p.1.1.gem_status
      ndvi_change_metric := none
      ghost_risk_score := none })

/-! ## The satellite audit (`run_satellite_audit`, `satellite_audit.py`
lines 52-90)

The metric each row receives (the Earth-engine query in the real path, the
seeded random draw in the simulated one) is a parameter: a list of one
metric per row.  The labeling itself (lines 80-87) is embedded exactly. -/

/-- The statuses under which construction activity is expected
(`satellite_audit.py` line 80). -/
def activeStatuses : List String :=
  ["operating", "construction", "pre-construction", "retired"]

/-- The audit-status string of a flagged row (`satellite_audit.py` line 87). -/
def ghostFlagged : String := "Ghost Flagged"

/-- The audit-status string of an unflagged row (`satellite_audit.py` line 87). -/
def activityVisible : String := "Activity Visible/Inactive"

/-- Lines 80-87 of `satellite_audit.py` for one row: record the metric,
set `is_ghost` to 1 exactly when the metric is below 0.05 and the status
is one of the active ones, and derive `audit_status` from `is_ghost`. -/
def labelRow (r : MasterRow) (metric : ℚ) : MasterRow :=
  let ghost : ℚ :=
    if metric < 0.05 ∧ r.gem_status ∈ activeStatuses then 1 else 0
  { r with
      ndvi_change_metric := some metric
      is_ghost := some ghost
      audit_status := some (if ghost = 1 then ghostFlagged else activityVisible) }

/-- The function `run_satellite_audit`: attach the `i`-th metric to the `i`-th row and
label every row. -/
def run_satellite_audit (metrics : List ℚ) (df : List MasterRow) : List MasterRow :=
  (df.zip metrics).map (fun p => labelRow p.1 p.2)

/-! ## The risk model (`train_ghost_risk_model`, `model_builder.py`
lines 9-60)

`train_test_split(..., test_size=0.2, random_state=42)` selects a fixed
pseudo-random 20% of row positions; the selection is the parameter
`isTest : ℕ → Bool` on positions within the eligible table.
`RandomForestClassifier(...).fit` is the parameter `fit`, producing the
forest's trees; `predict_proba(X)[:, 1]` is the fraction of trees voting
class 1. -/

/-- The sentinel metric value marking a failed satellite query
(`get_ndvi_change` returns `999.0`). -/
def sentinel : ℚ := 999

/-- The three-column feature frame `df[features]`
(`model_builder.py` line 20). -/
structure FeatRow where
  total_loan_usd : Option ℚ
  cpi_score : Option ℚ
  ndvi_change_metric : Option ℚ
  deriving DecidableEq

/-- Projection of a master row onto the feature columns. -/
def featuresOf (r : MasterRow) : FeatRow :=
  ⟨r.total_loan_usd, r.cpi_score, r.ndvi_change_metric⟩

/-- The per-feature fill values `mean_imputer = X_train.mean()`
(`model_builder.py` line 32). -/
structure Imputer where
  loan_mean : Option ℚ
  cpi_mean : Option ℚ
  ndvi_mean : Option ℚ
  deriving DecidableEq

/-- Embeds `fillna` on one cell: keep a present value, else use the fill value
(itself possibly missing, in which case the cell stays missing). -/
def fillCell (v fill : Option ℚ) : Option ℚ :=
  match v with
  | some q => some q
  | none => fill

/-- Embeds `X.fillna` with the fill values on one feature row. -/
def imputeRow (m : Imputer) (x : FeatRow) : FeatRow :=
  ⟨fillCell x.total_loan_usd m.loan_mean,
   fillCell x.cpi_score m.cpi_mean,
   fillCell x.ndvi_change_metric m.ndvi_mean⟩

/-- Embeds the class-1 `predict_proba` of a random forest: the fraction of trees
voting class 1 (0 when the forest is empty, as `q / 0 = 0` in `ℚ`). -/
def predictProba (trees : List (FeatRow → Bool)) (x : FeatRow) : ℚ :=
  ((trees.countP (fun t => t x) : ℕ) : ℚ) / ((trees.length : ℕ) : ℚ)

/-- The rows `train_test_split` keeps in the training partition: those at
positions the test-selection predicate rejects. -/
def trainPart (isTest : ℕ → Bool) (l : List α) : List α :=
  (l.enum.filter (fun p => !(isTest p.1))).map Prod.snd

/-- The rows `train_test_split` puts in the held-out partition: those at
positions the test-selection predicate accepts. -/
def testPart (isTest : ℕ → Bool) (l : List α) : List α :=
  (l.enum.filter (fun p => isTest p.1)).map Prod.snd

/-- Lines 17 and 24 of `model_builder.py`: drop the rows whose metric is
the sentinel, then the rows with a missing `is_ghost` label. -/
def eligibleRows (df : List MasterRow) : List MasterRow :=
  (df.filter (fun r => r.ndvi_change_metric != some sentinel)).filter
    (fun r => r.is_ghost.isSome)

/-- The feature matrix `X = df[features]` over the eligible rows
(`model_builder.py` line 25). -/
def featMatrix (df : List MasterRow) : List FeatRow :=
  (eligibleRows df).map featuresOf

/-- The label column `y = df['is_ghost']` over the eligible rows
(`model_builder.py` line 26). -/
def labelCol (df : List MasterRow) : List ℚ :=
  (eligibleRows df).map (fun r => r.is_ghost.getD 0)

/-- The (features, label) pairs of the training partition, before
imputation (`X_train, y_train` of line 30). -/
def trainPairs (isTest : ℕ → Bool) (df : List MasterRow) : List (FeatRow × ℚ) :=
  trainPart isTest ((featMatrix df).zip (labelCol df))

/-- The (features, label) pairs of the held-out partition, before
imputation (`X_test, y_test` of line 30). -/
def testPairs (isTest : ℕ → Bool) (df : List MasterRow) : List (FeatRow × ℚ) :=
  testPart isTest ((featMatrix df).zip (labelCol df))

/-- Embeds `mean_imputer = X_train.mean()` (`model_builder.py` line 32): the
per-feature mean of the training partition alone. -/
def meanImputer (isTest : ℕ → Bool) (df : List MasterRow) : Imputer :=
  ⟨colMean (((trainPairs isTest df).map Prod.fst).map FeatRow.total_loan_usd),
   colMean (((trainPairs isTest df).map Prod.fst).map FeatRow.cpi_score),
   colMean (((trainPairs isTest df).map Prod.fst).map FeatRow.ndvi_change_metric)⟩

/-- Embeds the model fitting of `RandomForestClassifier`
(`model_builder.py` lines 37-38), on the imputed training partition. -/
def fittedModel (isTest : ℕ → Bool)
    (fit : List (FeatRow × ℚ) → List (FeatRow → Bool)) (df : List MasterRow) :
    List (FeatRow → Bool) :=
  fit ((((trainPairs isTest df).map Prod.fst).map (imputeRow (meanImputer isTest df))).zip
    ((trainPairs isTest df).map Prod.snd))

/-- The score line 51 attaches to an eligible row: the fitted model's
class-1 probability on the row's features imputed with the training
means. -/
def scoreOf (isTest : ℕ → Bool)
    (fit : List (FeatRow × ℚ) → List (FeatRow → Bool)) (df : List MasterRow)
    (r : MasterRow) : ℚ :=
  predictProba (fittedModel isTest fit df) (imputeRow (meanImputer isTest df) (featuresOf r))

/-- The tables `train_ghost_risk_model` materializes: the raw and imputed
feature partitions, the fill values, the full scoring matrix and the
returned scored table. -/
structure ModelArtifacts where
  X_train_raw : List FeatRow
  X_test_raw : List FeatRow
  mean_imputer : Imputer
  X_train_imp : List FeatRow
  X_test_imp : List FeatRow
  X_full : List FeatRow
  scored : List MasterRow

/-- The function `train_ghost_risk_model` (`model_builder.py` lines 9-60): filter the
sentinel and unlabeled rows, split, impute with the training means, fit,
impute the full matrix with the same means, and return the eligible table
with `ghost_risk_score` attached. -/
def train_ghost_risk_model (isTest : ℕ → Bool)
    (fit : List (FeatRow × ℚ) → List (FeatRow → Bool)) (df : List MasterRow) :
    ModelArtifacts :=
  { X_train_raw := (trainPairs isTest df).map Prod.fst
    X_test_raw := (testPairs isTest df).map Prod.fst
    mean_imputer := meanImputer isTest df
    X_train_imp := ((trainPairs isTest df).map Prod.fst).map (imputeRow (meanImputer isTest df))
    X_test_imp := ((testPairs isTest df).map Prod.fst).map (imputeRow (meanImputer isTest df))
    X_full := (featMatrix df).map (imputeRow (meanImputer isTest df))
    scored := (eligibleRows df).map (fun r =>
      { r with ghost_risk_score := some (scoreOf isTest fit df r) }) }

/-! ## Impact analysis (`measure_impact`, `impact_analysis.py` lines 5-68) -/

/-- Lines 17-18 of `impact_analysis.py` on one row: coerce the financing
and capacity cells to numbers, replacing a missing value by 0; every other
column is untouched. -/
def coerceFill (r : MasterRow) : MasterRow :=
  { r with
      total_loan_usd := some (r.total_loan_usd.getD 0)
      funded_capacity_mw := some (r.funded_capacity_mw.getD 0) }

/-- Embeds the threshold comparison of the risk score on one row; a missing score
compares false, as `NaN` does. -/
def scoreAtLeast (t : ℚ) (r : MasterRow) : Bool :=
  match r.ghost_risk_score with
  | some s => decide (t ≤ s)
  | none => false

/-- The flat metrics mapping `measure_impact` returns
(`impact_analysis.py` lines 40-60). -/
structure ImpactMetrics where
  risk_threshold : ℚ
  total_projects : ℕ
  total_portfolio_loan_usd : ℚ
  total_portfolio_capacity_mw : ℚ
  audited_lost_loan_usd : ℚ
  audited_lost_capacity_mw : ℚ
  audited_ghost_count : ℕ
  predicted_at_risk_loan_usd : ℚ
  predicted_at_risk_capacity_mw : ℚ
  predicted_at_risk_count : ℕ
  pct_loans_at_risk : ℚ
  pct_capacity_at_risk : ℚ
  deriving DecidableEq

/-- The function `measure_impact`: coerce and zero-fill the two numeric columns in
place (the second component is the caller's mutated frame), then the
portfolio, audited and predicted aggregates, with each percentage guarded
to 0 when its denominator is not positive. -/
def measure_impact (df : List MasterRow) (risk_threshold : ℚ) :
    ImpactMetrics × List MasterRow :=
  let df1 := df.map coerceFill
  let total_loan := (df1.map (fun r => r.total_loan_usd.getD 0)).sum
  let total_cap := (df1.map (fun r => r.funded_capacity_mw.getD 0)).sum
  let audited := df1.filter (fun r => r.is_ghost == some 1)
  let predicted := df1.filter (scoreAtLeast risk_threshold)
  let pred_loan := (predicted.map (fun r => r.total_loan_usd.getD 0)).sum
  let pred_cap := (predicted.map (fun r => r.funded_capacity_mw.getD 0)).sum
  (⟨risk_threshold, df1.length, total_loan, total_cap,
    (audited.map (fun r => r.total_loan_usd.getD 0)).sum,
    (audited.map (fun r => r.funded_capacity_mw.getD 0)).sum,
    audited.length, pred_loan, pred_cap, predicted.length,
    if 0 < total_loan then pred_loan / total_loan else 0,
    if 0 < total_cap then pred_cap / total_cap else 0⟩,
   df1)

/-! ## The final index (`create_final_index`, `model_builder.py`
lines 63-86) -/

/-- The fixed output column subset of the final index
(`model_builder.py` lines 69-71). -/
structure FinalRow where
  project_id : Option ℚ
  project_name : String
  country : String
  latitude : Option ℚ
  longitude : Option ℚ
  ghost_risk_score : Option ℚ
  is_ghost : Option ℚ
  funded_capacity_mw : Option ℚ
  project_type : String
  total_loan_usd : Option ℚ
  audit_status : Option String
  deriving DecidableEq

/-- Projection of a master row onto the final-index columns. -/
def toFinalRow (r : MasterRow) : FinalRow :=
  ⟨r.project_id, r.project_name, r.country, r.latitude, r.longitude,
   r.ghost_risk_score, r.is_ghost, r.funded_capacity_mw, r.project_type,
   r.total_loan_usd, r.audit_status⟩

/-- The ordering of `sort_values(by='ghost_risk_score', ascending=False)`:
higher scores first, missing scores last. -/
def scoreLeB (a b : MasterRow) : Bool :=
  match a.ghost_risk_score, b.ghost_risk_score with
  | some x, some y => decide (y ≤ x)
  | some _, none => true
  | none, some _ => false
  | none, none => true

/-- The sort order as a relation. -/
def scoreLe (a b : MasterRow) : Prop := scoreLeB a b = true

instance : DecidableRel scoreLe := fun _ _ => inferInstanceAs (Decidable (_ = true))

/-- The function `create_final_index` (`model_builder.py` lines 63-74): sort by risk
score descending and project onto the fixed column subset. -/
def create_final_index (df : List MasterRow) : List FinalRow :=
  (List.insertionSort scoreLe df).map toFinalRow

/-- The map-ready record list (`model_builder.py` lines 80-82): the rows
of the final index with both coordinates present, restricted to the map
columns. -/
def map_data (df : List MasterRow) : List (String × String × ℚ × ℚ × Option ℚ) :=
  ((create_final_index df).filter
    (fun r => r.latitude.isSome && r.longitude.isSome)).map
    (fun r => (r.project_name, r.country, r.latitude.getD 0, r.longitude.getD 0,
      r.ghost_risk_score))

/-! ## Sample data used by the witnesses -/

/-- A master row of a project in lifecycle status `operating`. -/
def opRow : MasterRow :=
  { project_id := none
    project_name := "P1"
    country := "A"
    latitude := some 10
    longitude := some 20
    total_loan_usd := some 100
    start_year := some 2020
    funded_capacity_mw := some 50
    project_type := "solar"
    cpi_score := some 40
    rule_of_law_score := none
    is_ghost := none
    audit_status := none
    gem_status := "operating"
    ndvi_change_metric := none
    ghost_risk_score := none }

/-- A master row of a project in lifecycle status `cancelled`. -/
def cancRow : MasterRow :=
  { opRow with project_name := "P2", gem_status := "cancelled" }

/-- An audited row: metric 0 (usable), labeled ghost. -/
def ghostRow : MasterRow :=
  { opRow with
      ndvi_change_metric := some 0
      is_ghost := some 1
      audit_status := some ghostFlagged }

/-- A row with a usable metric but a missing ground-truth label. -/
def noLabelRow : MasterRow :=
  { opRow with ndvi_change_metric := some 0, is_ghost := none }

/-- A scored row with the higher risk score. -/
def scoredHi : MasterRow :=
  { ghostRow with ghost_risk_score := some 1 }

/-- A scored row with the lower risk score. -/
def scoredLo : MasterRow :=
  { cancRow with
      ndvi_change_metric := some 0
      is_ghost := some 0
      audit_status := some activityVisible
      ghost_risk_score := some 0 }

/-- A scored row with no financing and no capacity data. -/
def zeroRow : MasterRow :=
  { opRow with
      total_loan_usd := none
      funded_capacity_mw := none
      ndvi_change_metric := some 0
      is_ghost := some 1
      ghost_risk_score := some 1 }

/-! ## Helper lemmas -/

theorem labelRow_is_ghost (r : MasterRow) (m : ℚ) :
    (labelRow r m).is_ghost =
      some (if m < 0.05 ∧ r.gem_status ∈ activeStatuses then 1 else 0) := rfl

theorem labelRow_cases (r : MasterRow) (m : ℚ) :
    ((labelRow r m).is_ghost = some 1 ∧ (labelRow r m).audit_status = some ghostFlagged)
    ∨ ((labelRow r m).is_ghost = some 0 ∧
        (labelRow r m).audit_status = some activityVisible) := by
  by_cases hc : m < 0.05 ∧ r.gem_status ∈ activeStatuses
  · left
    constructor <;> simp [labelRow, hc]
  · right
    constructor <;> simp [labelRow, hc]

/-! ## Claim C1 -/

/-- Claim C1: the ground-truth label `run_satellite_audit` computes for a
row is a pure function of the row's sensing metric and lifecycle status:
`is_ghost = 1` iff the metric is below 0.05 and the status is one of
operating / construction / pre-construction / retired, else `is_ghost = 0`;
in particular a `cancelled` or `announced` row is never labeled 1. -/
theorem audit_label_is_pure_rule (df : List MasterRow) (metrics : List ℚ) (i : ℕ)
    (h1 : i < df.length) (h2 : i < metrics.length)
    (h : i < (run_satellite_audit metrics df).length) :
    ((run_satellite_audit metrics df).get ⟨i, h⟩).is_ghost =
      some (if metrics.get ⟨i, h2⟩ < 0.05 ∧
              (df.get ⟨i, h1⟩).gem_status ∈ activeStatuses then 1 else 0) ∧
    ((df.get ⟨i, h1⟩).gem_status = "cancelled" ∨
        (df.get ⟨i, h1⟩).gem_status = "announced" →
      ((run_satellite_audit metrics df).get ⟨i, h⟩).is_ghost = some 0) := by
  have hget : (run_satellite_audit metrics df).get ⟨i, h⟩ =
      labelRow (df.get ⟨i, h1⟩) (metrics.get ⟨i, h2⟩) := by
    simp [run_satellite_audit, List.get_eq_getElem, List.getElem_map, List.getElem_zip]
  constructor
  · rw [hget, labelRow_is_ghost]
  · intro hcase
    rw [hget, labelRow_is_ghost]
    have hnot : (df.get ⟨i, h1⟩).gem_status ∉ activeStatuses := by
      rcases hcase with hco | hco <;> rw [hco] <;> decide
    simp only [hnot, and_false, if_false]

/-- Witness for C1: a `cancelled` project with metric 0 (well below the
threshold) is labeled 0. -/
theorem audit_label_is_pure_rule_witness :
    ((run_satellite_audit [(0 : ℚ)] [cancRow]).get ⟨0, by decide⟩).is_ghost = some 0 :=
  (audit_label_is_pure_rule [cancRow] [(0 : ℚ)] 0 (by decide) (by decide) (by decide)).2
    (Or.inl rfl)

/-! ## Claim C10 -/

/-- Claim C10: every row returned by `run_satellite_audit` has `is_ghost`
exactly 0 or 1 (never missing) and `audit_status` exactly one of the two
strings, with the flagged string iff `is_ghost = 1`; hence the
missing-label filter of the training step removes no audited row. -/
theorem audit_output_label_invariants (metrics : List ℚ) (df : List MasterRow)
    (r : MasterRow) (hr : r ∈ run_satellite_audit metrics df) :
    (r.is_ghost = some 0 ∨ r.is_ghost = some 1) ∧
    (r.audit_status = some ghostFlagged ∨ r.audit_status = some activityVisible) ∧
    (r.audit_status = some ghostFlagged ↔ r.is_ghost = some 1) ∧
    (run_satellite_audit metrics df).filter (fun x => x.is_ghost.isSome) =
      run_satellite_audit metrics df := by
  have hflag_ne : ghostFlagged ≠ activityVisible := by decide
  have hmain : ∀ s ∈ run_satellite_audit metrics df,
      (s.is_ghost = some 0 ∨ s.is_ghost = some 1) ∧
      (s.audit_status = some ghostFlagged ∨ s.audit_status = some activityVisible) ∧
      (s.audit_status = some ghostFlagged ↔ s.is_ghost = some 1) := by
    intro s hs
    obtain ⟨p, _, rfl⟩ := List.mem_map.mp hs
    rcases labelRow_cases p.1 p.2 with ⟨hg, ha⟩ | ⟨hg, ha⟩
    · exact ⟨Or.inr hg, Or.inl ha, by simp [hg, ha]⟩
    · refine ⟨Or.inl hg, Or.inr ha, ?_⟩
      rw [hg, ha]
      constructor
      · intro hcon
        exact absurd (Option.some.inj hcon).symm hflag_ne
      · intro hcon
        exact absurd (Option.some.inj hcon) zero_ne_one
  refine ⟨(hmain r hr).1, (hmain r hr).2.1, (hmain r hr).2.2, ?_⟩
  refine List.filter_eq_self.mpr (fun x hx => ?_)
  rcases (hmain x hx).1 with hg | hg <;> simp [hg]

/-- Witness for C10: the audited row of an `operating` project. -/
theorem audit_output_label_invariants_witness :
    ((labelRow opRow 0).is_ghost = some 0 ∨ (labelRow opRow 0).is_ghost = some 1) ∧
    ((labelRow opRow 0).audit_status = some ghostFlagged ∨
      (labelRow opRow 0).audit_status = some activityVisible) ∧
    ((labelRow opRow 0).audit_status = some ghostFlagged ↔
      (labelRow opRow 0).is_ghost = some 1) ∧
    (run_satellite_audit [(0 : ℚ)] [opRow]).filter (fun x => x.is_ghost.isSome) =
      run_satellite_audit [(0 : ℚ)] [opRow] :=
  audit_output_label_invariants [(0 : ℚ)] [opRow] (labelRow opRow 0)
    (by simp [run_satellite_audit])

/-! ## Claim C2 -/

theorem filter_key_length_le_one (tbl : List (String × Option ℚ)) (k : String)
    (h : (tbl.map Prod.fst).Nodup) :
    (tbl.filter (fun t => t.1 == k)).length ≤ 1 := by
  induction tbl with
  | nil => simp
  | cons a tl ih =>
    rw [List.map_cons, List.nodup_cons] at h
    by_cases hk : a.1 == k
    · have hak : a.1 = k := by simpa using hk
      have hnil : tl.filter (fun t => t.1 == k) = [] := by
        refine List.filter_eq_nil_iff.mpr (fun t ht => ?_)
        have h1 : t.1 ∈ tl.map Prod.fst := List.mem_map_of_mem _ ht
        simp only [beq_iff_eq]
        intro hEq
        exact h.1 (by rw [hak, ← hEq]; exact h1)
      simp [List.filter_cons, hk, hnil]
    · simp only [List.filter_cons, hk, if_false]
      exact ih h.2

theorem leftJoinCol_length (base : List α) (key : α → String)
    (tbl : List (String × Option ℚ)) (h : (tbl.map Prod.fst).Nodup) :
    (leftJoinCol base key tbl).length = base.length := by
  induction base with
  | nil => rfl
  | cons b rest ih =>
    simp only [leftJoinCol, List.length_append, List.length_cons, ih]
    by_cases he : (tbl.filter (fun t => t.1 == key b)).isEmpty
    · simp [he, Nat.add_comm]
    · have hle := filter_key_length_le_one tbl (key b) h
      have hpos : 0 < (tbl.filter (fun t => t.1 == key b)).length := by
        rw [List.isEmpty_iff] at he
        exact List.length_pos.mpr he
      rw [if_neg he, List.length_map]
      omega

theorem adb_loans_keys_nodup (adb : List AdbRow) :
    ((adb_loans adb).map Prod.fst).Nodup := by
  have heq : (adb_loans adb).map Prod.fst = (adb.map AdbRow.country).dedup := by
    simp only [adb_loans, List.map_map]
    exact List.map_id' _
  rw [heq]
  exact List.nodup_dedup _

/-- Claim C2: for well-formed inputs (the governance table carrying at most
one row per country), the master table of `create_master_data` has exactly
as many rows as the GEM inventory: the two left joins neither drop nor
duplicate a base-list row. -/
theorem master_rowcount_invariant (gem : List GemRow) (ti : List TiRow)
    (adb : List AdbRow) (h : (ti.map TiRow.country).Nodup) :
    (create_master_data gem ti adb).length = gem.length := by
  have h1 : ((ti.map (fun t => (t.country, t.cpi_score))).map Prod.fst).Nodup := by
    simpa [List.map_map, Function.comp] using h
  simp only [create_master_data]
  rw [List.length_map, leftJoinCol_length _ _ _ (adb_loans_keys_nodup adb),
    leftJoinCol_length _ _ _ h1]

/-- Witness for C2: two inventory rows, a two-country governance table and
a three-row financing table yield a master table of exactly two rows. -/
theorem master_rowcount_invariant_witness :
    (([⟨"A", some 40⟩, ⟨"B", some 60⟩] : List TiRow).map TiRow.country).Nodup ∧
    (create_master_data
      [⟨"G1", "A", some 50, "solar", some 2020, some 1, some 2, "operating"⟩,
       ⟨"G2", "B", none, "wind", none, none, none, "cancelled"⟩]
      [⟨"A", some 40⟩, ⟨"B", some 60⟩]
      [⟨"A", some 100⟩, ⟨"A", some 200⟩, ⟨"B", none⟩]).length =
    ([⟨"G1", "A", some 50, "solar", some 2020, some 1, some 2, "operating"⟩,
      ⟨"G2", "B", none, "wind", none, none, none, "cancelled"⟩] : List GemRow).length :=
  ⟨by decide, master_rowcount_invariant _ _ _ (by decide)⟩

/-! ## Claims C3, C4, C5: the risk model -/

theorem trainPart_sublist (isTest : ℕ → Bool) (l : List α) :
    (trainPart isTest l).Sublist l := by
  have h1 : (l.enum.filter (fun p => !(isTest p.1))).Sublist l.enum :=
    List.filter_sublist _
  have h2 := h1.map Prod.snd
  rwa [List.enum_map_snd] at h2

theorem mem_eligibleRows {df : List MasterRow} {r : MasterRow}
    (hr : r ∈ eligibleRows df) :
    r ∈ df ∧ r.ndvi_change_metric ≠ some sentinel ∧ r.is_ghost.isSome := by
  simp only [eligibleRows, List.mem_filter] at hr
  refine ⟨hr.1.1, ?_, hr.2⟩
  simpa using hr.1.2

theorem eligibleRows_mem {df : List MasterRow} {r : MasterRow} (h1 : r ∈ df)
    (h2 : r.ndvi_change_metric ≠ some sentinel) (h3 : r.is_ghost.isSome) :
    r ∈ eligibleRows df := by
  simp only [eligibleRows, List.mem_filter]
  exact ⟨⟨h1, by simpa using h2⟩, h3⟩

theorem scored_eq (isTest : ℕ → Bool)
    (fit : List (FeatRow × ℚ) → List (FeatRow → Bool)) (df : List MasterRow) :
    (train_ghost_risk_model isTest fit df).scored =
      (eligibleRows df).map (fun r =>
        { r with ghost_risk_score := some (scoreOf isTest fit df r) }) := rfl

theorem X_train_raw_eq (isTest : ℕ → Bool)
    (fit : List (FeatRow × ℚ) → List (FeatRow → Bool)) (df : List MasterRow) :
    (train_ghost_risk_model isTest fit df).X_train_raw =
      (trainPairs isTest df).map Prod.fst := rfl

theorem predictProba_nonneg (trees : List (FeatRow → Bool)) (x : FeatRow) :
    0 ≤ predictProba trees x := by
  unfold predictProba
  positivity

theorem predictProba_le_one (trees : List (FeatRow → Bool)) (x : FeatRow) :
    predictProba trees x ≤ 1 := by
  unfold predictProba
  rcases Nat.eq_zero_or_pos trees.length with h0 | hpos
  · rw [List.length_eq_zero] at h0
    subst h0
    norm_num
  · refine div_le_one_of_le₀ ?_ (by positivity)
    exact_mod_cast List.countP_le_length _

/-! ## Claim C3 -/

/-- Claim C3: a row whose sensing metric is the sentinel 999.0 is absent
from the training set of `train_ghost_risk_model` and from the returned
risk-scored table: no sensing metric appearing in either place is the
sentinel. -/
theorem sentinel_rows_absent (isTest : ℕ → Bool)
    (fit : List (FeatRow × ℚ) → List (FeatRow → Bool)) (df : List MasterRow)
    (v : Option ℚ)
    (hv : v ∈ ((train_ghost_risk_model isTest fit df).X_train_raw.map
          FeatRow.ndvi_change_metric) ++
        ((train_ghost_risk_model isTest fit df).scored.map
          MasterRow.ndvi_change_metric)) :
    v ≠ some sentinel := by
  rw [List.mem_append] at hv
  rcases hv with hv | hv
  · obtain ⟨x, hx, rfl⟩ := List.mem_map.mp hv
    rw [X_train_raw_eq] at hx
    obtain ⟨p, hp, rfl⟩ := List.mem_map.mp hx
    have hzip : p ∈ (featMatrix df).zip (labelCol df) :=
      (trainPart_sublist _ _).subset hp
    obtain ⟨a, b⟩ := p
    have hfeat : a ∈ featMatrix df := (List.of_mem_zip hzip).1
    obtain ⟨r, hrmem, hfr⟩ := List.mem_map.mp hfeat
    have hnot := (mem_eligibleRows hrmem).2.1
    rw [← hfr]
    simpa [featuresOf] using hnot
  · obtain ⟨s, hs, rfl⟩ := List.mem_map.mp hv
    rw [scored_eq] at hs
    obtain ⟨r, hrmem, rfl⟩ := List.mem_map.mp hs
    have hnot := (mem_eligibleRows hrmem).2.1
    simpa using hnot

/-- Witness for C3: on a one-row table with a usable metric, the metric
value found in the training set is not the sentinel. -/
theorem sentinel_rows_absent_witness :
    (some (0 : ℚ) ∈
      ((train_ghost_risk_model (fun _ => false) (fun _ => []) [ghostRow]).X_train_raw.map
          FeatRow.ndvi_change_metric) ++
        ((train_ghost_risk_model (fun _ => false) (fun _ => []) [ghostRow]).scored.map
          MasterRow.ndvi_change_metric)) ∧
    (some (0 : ℚ) ≠ some sentinel) :=
  ⟨by decide, sentinel_rows_absent (fun _ => false) (fun _ => []) [ghostRow]
    (some 0) (by decide)⟩

/-! ## Claim C4 -/

/-- Claim C4: the imputation fill values of `train_ghost_risk_model` are
the per-feature means of the raw training partition (computed after the
split), and exactly those fill values — never statistics recomputed from
evaluation or scoring data — are applied to the training partition, the
held-out partition and the full scoring matrix. -/
theorem imputation_from_training_only (isTest : ℕ → Bool)
    (fit : List (FeatRow × ℚ) → List (FeatRow → Bool)) (df : List MasterRow) :
    (train_ghost_risk_model isTest fit df).mean_imputer =
      ⟨colMean ((train_ghost_risk_model isTest fit df).X_train_raw.map
          FeatRow.total_loan_usd),
        colMean ((train_ghost_risk_model isTest fit df).X_train_raw.map
          FeatRow.cpi_score),
        colMean ((train_ghost_risk_model isTest fit df).X_train_raw.map
          FeatRow.ndvi_change_metric)⟩ ∧
    (train_ghost_risk_model isTest fit df).X_train_imp =
      (train_ghost_risk_model isTest fit df).X_train_raw.map
        (imputeRow (train_ghost_risk_model isTest fit df).mean_imputer) ∧
    (train_ghost_risk_model isTest fit df).X_test_imp =
      (train_ghost_risk_model isTest fit df).X_test_raw.map
        (imputeRow (train_ghost_risk_model isTest fit df).mean_imputer) ∧
    (train_ghost_risk_model isTest fit df).X_full =
      (train_ghost_risk_model isTest fit df).scored.map
        (fun r => imputeRow (train_ghost_risk_model isTest fit df).mean_imputer
          (featuresOf r)) := by
  refine ⟨rfl, rfl, rfl, ?_⟩
  rw [scored_eq]
  show (featMatrix df).map (imputeRow (meanImputer isTest df)) = _
  rw [featMatrix, List.map_map, List.map_map]
  rfl

/-! ## Claim C5 -/

/-- Claim C5 is refuted as stated: an eligible row (metric not the
sentinel) whose ground-truth label is missing is dropped by the
missing-label filter and receives no score — with one such row as the
whole input, the returned scored table is empty. -/
theorem unlabeled_eligible_row_unscored :
    noLabelRow.ndvi_change_metric ≠ some sentinel ∧
    (train_ghost_risk_model (fun _ => false) (fun _ => []) [noLabelRow]).scored = [] :=
  ⟨by decide, rfl⟩

/-- Claim C5 (amended): every input row whose sensing metric is not the
sentinel 999.0 *and whose ground-truth label is present* appears in the
table returned by `train_ghost_risk_model` with a risk score in [0, 1]
attached. -/
theorem eligible_labeled_rows_scored (isTest : ℕ → Bool)
    (fit : List (FeatRow × ℚ) → List (FeatRow → Bool)) (df : List MasterRow)
    (r : MasterRow) (hr : r ∈ df) (h999 : r.ndvi_change_metric ≠ some sentinel)
    (hlab : r.is_ghost.isSome) :
    ∃ s : ℚ, 0 ≤ s ∧ s ≤ 1 ∧
      { r with ghost_risk_score := some s } ∈
        (train_ghost_risk_model isTest fit df).scored := by
  have hel : r ∈ eligibleRows df := eligibleRows_mem hr h999 hlab
  refine ⟨scoreOf isTest fit df r, predictProba_nonneg _ _, predictProba_le_one _ _, ?_⟩
  rw [scored_eq]
  exact List.mem_map_of_mem _ hel

/-- Witness for C5 (amended): a one-row table with a usable metric and a
present label is scored. -/
theorem eligible_labeled_rows_scored_witness :
    ∃ s : ℚ, 0 ≤ s ∧ s ≤ 1 ∧
      { ghostRow with ghost_risk_score := some s } ∈
        (train_ghost_risk_model (fun _ => false) (fun _ => []) [ghostRow]).scored :=
  eligible_labeled_rows_scored (fun _ => false) (fun _ => []) [ghostRow] ghostRow
    (by decide) (by decide) (by decide)

/-! ## Claim C6 -/

instance : IsTotal MasterRow scoreLe where
  total a b := by
    unfold scoreLe scoreLeB
    cases a.ghost_risk_score <;> cases b.ghost_risk_score <;>
      simp [decide_eq_true_eq]
    exact le_total _ _

instance : IsTrans MasterRow scoreLe where
  trans a b c h1 h2 := by
    unfold scoreLe scoreLeB at *
    revert h1 h2
    cases a.ghost_risk_score <;> cases b.ghost_risk_score <;>
      cases c.ghost_risk_score <;> simp [decide_eq_true_eq] <;>
      exact fun hba hcb => le_trans hcb hba

theorem scoreLe_some_some {a b : MasterRow} {x y : ℚ}
    (ha : a.ghost_risk_score = some x) (hb : b.ghost_risk_score = some y)
    (h : scoreLe a b) : y ≤ x := by
  unfold scoreLe scoreLeB at h
  rw [ha, hb] at h
  simpa [decide_eq_true_eq] using h

/-- Claim C6: the final index of `create_final_index` is sorted by risk
score in descending order — every adjacent pair satisfies
`score[i] ≥ score[i+1]` — and the sort drops no row of the scored input
(the output is a permutation of the projected input). -/
theorem final_index_sorted_desc (df : List MasterRow)
    (hs : ∀ r ∈ df, r.ghost_risk_score.isSome) (i : ℕ)
    (h1 : i + 1 < (create_final_index df).length) :
    ((create_final_index df).get ⟨i + 1, h1⟩).ghost_risk_score.getD 0 ≤
      ((create_final_index df).get ⟨i, Nat.lt_of_succ_lt h1⟩).ghost_risk_score.getD 0 ∧
    (create_final_index df).Perm (df.map toFinalRow) := by
  have hsorted : (List.insertionSort scoreLe df).Sorted scoreLe :=
    List.sorted_insertionSort scoreLe df
  have hperm : (List.insertionSort scoreLe df).Perm df :=
    List.perm_insertionSort scoreLe df
  have hlen : (create_final_index df).length = (List.insertionSort scoreLe df).length := by
    simp [create_final_index]
  constructor
  · have hi1 : i + 1 < (List.insertionSort scoreLe df).length := hlen ▸ h1
    have hi0 : i < (List.insertionSort scoreLe df).length := Nat.lt_of_succ_lt hi1
    have hrel : scoreLe ((List.insertionSort scoreLe df).get ⟨i, hi0⟩)
        ((List.insertionSort scoreLe df).get ⟨i + 1, hi1⟩) :=
      hsorted.rel_get_of_lt (by simp [Fin.lt_def])
    obtain ⟨x, hx⟩ := Option.isSome_iff_exists.mp
      (hs _ (hperm.subset (List.get_mem _ i hi0)))
    obtain ⟨y, hy⟩ := Option.isSome_iff_exists.mp
      (hs _ (hperm.subset (List.get_mem _ (i + 1) hi1)))
    have hc0 : (create_final_index df).get ⟨i, Nat.lt_of_succ_lt h1⟩ =
        toFinalRow ((List.insertionSort scoreLe df).get ⟨i, hi0⟩) := by
      simp [create_final_index, List.get_eq_getElem, List.getElem_map]
    have hc1 : (create_final_index df).get ⟨i + 1, h1⟩ =
        toFinalRow ((List.insertionSort scoreLe df).get ⟨i + 1, hi1⟩) := by
      simp [create_final_index, List.get_eq_getElem, List.getElem_map]
    rw [hc0, hc1]
    show ((List.insertionSort scoreLe df).get ⟨i + 1, hi1⟩).ghost_risk_score.getD 0 ≤
      ((List.insertionSort scoreLe df).get ⟨i, hi0⟩).ghost_risk_score.getD 0
    have hxy : y ≤ x := scoreLe_some_some hx hy hrel
    rw [hx, hy]
    simpa using hxy
  · exact hperm.map toFinalRow

/-- Witness for C6: a two-row scored table, given in ascending order, is
returned sorted descending and as a permutation of the input. -/
theorem final_index_sorted_desc_witness :
    ((create_final_index [scoredLo, scoredHi]).get
        ⟨1, by decide⟩).ghost_risk_score.getD 0 ≤
      ((create_final_index [scoredLo, scoredHi]).get
        ⟨0, by decide⟩).ghost_risk_score.getD 0 ∧
    (create_final_index [scoredLo, scoredHi]).Perm
      ([scoredLo, scoredHi].map toFinalRow) :=
  final_index_sorted_desc [scoredLo, scoredHi] (by decide) 0 (by decide)

/-! ## Claim C7 -/

theorem measure_impact_pct_loans (df : List MasterRow) (t : ℚ) :
    (measure_impact df t).1.pct_loans_at_risk =
      if 0 < (measure_impact df t).1.total_portfolio_loan_usd then
        (measure_impact df t).1.predicted_at_risk_loan_usd /
          (measure_impact df t).1.total_portfolio_loan_usd
      else 0 := rfl

theorem measure_impact_pct_capacity (df : List MasterRow) (t : ℚ) :
    (measure_impact df t).1.pct_capacity_at_risk =
      if 0 < (measure_impact df t).1.total_portfolio_capacity_mw then
        (measure_impact df t).1.predicted_at_risk_capacity_mw /
          (measure_impact df t).1.total_portfolio_capacity_mw
      else 0 := rfl

/-- Claim C7: for every scored table and threshold, `measure_impact`
returns `pct_loans_at_risk = 0` when the total financing sum is 0 and
`pct_capacity_at_risk = 0` when the total capacity sum is 0; the guarded
conditional raises no division error in either case. -/
theorem impact_pct_zero_guard (df : List MasterRow) (t : ℚ) :
    ((measure_impact df t).1.total_portfolio_loan_usd = 0 →
      (measure_impact df t).1.pct_loans_at_risk = 0) ∧
    ((measure_impact df t).1.total_portfolio_capacity_mw = 0 →
      (measure_impact df t).1.pct_capacity_at_risk = 0) := by
  constructor
  · intro h0
    rw [measure_impact_pct_loans, h0]
    simp
  · intro h0
    rw [measure_impact_pct_capacity, h0]
    simp

/-- Witness for C7: a scored table whose only project has no financing
and no capacity data has zero totals and zero percentages. -/
theorem impact_pct_zero_guard_witness :
    (measure_impact [zeroRow] 1).1.total_portfolio_loan_usd = 0 ∧
    (measure_impact [zeroRow] 1).1.pct_loans_at_risk = 0 ∧
    (measure_impact [zeroRow] 1).1.total_portfolio_capacity_mw = 0 ∧
    (measure_impact [zeroRow] 1).1.pct_capacity_at_risk = 0 := by
  have hz1 : (measure_impact [zeroRow] 1).1.total_portfolio_loan_usd = 0 := by
    simp [measure_impact, coerceFill, zeroRow, opRow]
  have hz2 : (measure_impact [zeroRow] 1).1.total_portfolio_capacity_mw = 0 := by
    simp [measure_impact, coerceFill, zeroRow, opRow]
  exact ⟨hz1, (impact_pct_zero_guard [zeroRow] 1).1 hz1, hz2,
    (impact_pct_zero_guard [zeroRow] 1).2 hz2⟩

/-! ## Claim C9 -/

/-- Claim C9: `measure_impact` rewrites the caller's table — the financing
and capacity cells are coerced with missing values replaced by 0, every
other column of every row unchanged — so the final index built afterwards
from the same table carries 0 where financing or capacity was missing. -/
theorem measure_impact_frame_effect (df : List MasterRow) (t : ℚ) (i : ℕ)
    (hi : i < df.length) (h2 : i < ((measure_impact df t).2).length)
    (fr : FinalRow) (hfr : fr ∈ create_final_index ((measure_impact df t).2)) :
    (((measure_impact df t).2).get ⟨i, h2⟩).total_loan_usd =
        some ((df.get ⟨i, hi⟩).total_loan_usd.getD 0) ∧
    (((measure_impact df t).2).get ⟨i, h2⟩).funded_capacity_mw =
        some ((df.get ⟨i, hi⟩).funded_capacity_mw.getD 0) ∧
    (((measure_impact df t).2).get ⟨i, h2⟩).project_id = (df.get ⟨i, hi⟩).project_id ∧
    (((measure_impact df t).2).get ⟨i, h2⟩).project_name = (df.get ⟨i, hi⟩).project_name ∧
    (((measure_impact df t).2).get ⟨i, h2⟩).country = (df.get ⟨i, hi⟩).country ∧
    (((measure_impact df t).2).get ⟨i, h2⟩).latitude = (df.get ⟨i, hi⟩).latitude ∧
    (((measure_impact df t).2).get ⟨i, h2⟩).longitude = (df.get ⟨i, hi⟩).longitude ∧
    (((measure_impact df t).2).get ⟨i, h2⟩).start_year = (df.get ⟨i, hi⟩).start_year ∧
    (((measure_impact df t).2).get ⟨i, h2⟩).project_type = (df.get ⟨i, hi⟩).project_type ∧
    (((measure_impact df t).2).get ⟨i, h2⟩).cpi_score = (df.get ⟨i, hi⟩).cpi_score ∧
    (((measure_impact df t).2).get ⟨i, h2⟩).rule_of_law_score =
        (df.get ⟨i, hi⟩).rule_of_law_score ∧
    (((measure_impact df t).2).get ⟨i, h2⟩).is_ghost = (df.get ⟨i, hi⟩).is_ghost ∧
    (((measure_impact df t).2).get ⟨i, h2⟩).audit_status = (df.get ⟨i, hi⟩).audit_status ∧
    (((measure_impact df t).2).get ⟨i, h2⟩).gem_status = (df.get ⟨i, hi⟩).gem_status ∧
    (((measure_impact df t).2).get ⟨i, h2⟩).ndvi_change_metric =
        (df.get ⟨i, hi⟩).ndvi_change_metric ∧
    (((measure_impact df t).2).get ⟨i, h2⟩).ghost_risk_score =
        (df.get ⟨i, hi⟩).ghost_risk_score ∧
    (∃ r ∈ df, fr.total_loan_usd = some (r.total_loan_usd.getD 0) ∧
      fr.funded_capacity_mw = some (r.funded_capacity_mw.getD 0)) := by
  have hget : ((measure_impact df t).2).get ⟨i, h2⟩ = coerceFill (df.get ⟨i, hi⟩) := by
    show (df.map coerceFill).get ⟨i, h2⟩ = coerceFill (df.get ⟨i, hi⟩)
    simp [List.get_eq_getElem, List.getElem_map]
  have hco : ∀ f : MasterRow → Prop, f (coerceFill (df.get ⟨i, hi⟩)) →
      f (((measure_impact df t).2).get ⟨i, h2⟩) := fun f hf => hget ▸ hf
  refine ⟨hco (fun m => m.total_loan_usd = _) rfl,
    hco (fun m => m.funded_capacity_mw = _) rfl,
    hco (fun m => m.project_id = _) rfl,
    hco (fun m => m.project_name = _) rfl,
    hco (fun m => m.country = _) rfl,
    hco (fun m => m.latitude = _) rfl,
    hco (fun m => m.longitude = _) rfl,
    hco (fun m => m.start_year = _) rfl,
    hco (fun m => m.project_type = _) rfl,
    hco (fun m => m.cpi_score = _) rfl,
    hco (fun m => m.rule_of_law_score = _) rfl,
    hco (fun m => m.is_ghost = _) rfl,
    hco (fun m => m.audit_status = _) rfl,
    hco (fun m => m.gem_status = _) rfl,
    hco (fun m => m.ndvi_change_metric = _) rfl,
    hco (fun m => m.ghost_risk_score = _) rfl, ?_⟩
  have hfr' : fr ∈ (List.insertionSort scoreLe (df.map coerceFill)).map toFinalRow := hfr
  obtain ⟨m, hm, rfl⟩ := List.mem_map.mp hfr'
  have hmm : m ∈ df.map coerceFill := (List.mem_insertionSort _).mp hm
  obtain ⟨r, hrdf, rfl⟩ := List.mem_map.mp hmm
  exact ⟨r, hrdf, rfl, rfl⟩

/-- Witness for C9: a one-row table with missing financing and capacity;
the mutated row carries 0 in both cells, everything else unchanged, and
the final index row built from the mutated table carries the zeros. -/
theorem measure_impact_frame_effect_witness :
    (((measure_impact [zeroRow] 1).2).get ⟨0, by decide⟩).total_loan_usd =
        some (zeroRow.total_loan_usd.getD 0) ∧
    (((measure_impact [zeroRow] 1).2).get ⟨0, by decide⟩).funded_capacity_mw =
        some (zeroRow.funded_capacity_mw.getD 0) ∧
    (((measure_impact [zeroRow] 1).2).get ⟨0, by decide⟩).project_id = zeroRow.project_id ∧
    (((measure_impact [zeroRow] 1).2).get ⟨0, by decide⟩).project_name =
        zeroRow.project_name ∧
    (((measure_impact [zeroRow] 1).2).get ⟨0, by decide⟩).country = zeroRow.country ∧
    (((measure_impact [zeroRow] 1).2).get ⟨0, by decide⟩).latitude = zeroRow.latitude ∧
    (((measure_impact [zeroRow] 1).2).get ⟨0, by decide⟩).longitude = zeroRow.longitude ∧
    (((measure_impact [zeroRow] 1).2).get ⟨0, by decide⟩).start_year = zeroRow.start_year ∧
    (((measure_impact [zeroRow] 1).2).get ⟨0, by decide⟩).project_type =
        zeroRow.project_type ∧
    (((measure_impact [zeroRow] 1).2).get ⟨0, by decide⟩).cpi_score = zeroRow.cpi_score ∧
    (((measure_impact [zeroRow] 1).2).get ⟨0, by decide⟩).rule_of_law_score =
        zeroRow.rule_of_law_score ∧
    (((measure_impact [zeroRow] 1).2).get ⟨0, by decide⟩).is_ghost = zeroRow.is_ghost ∧
    (((measure_impact [zeroRow] 1).2).get ⟨0, by decide⟩).audit_status =
        zeroRow.audit_status ∧
    (((measure_impact [zeroRow] 1).2).get ⟨0, by decide⟩).gem_status =
        zeroRow.gem_status ∧
    (((measure_impact [zeroRow] 1).2).get ⟨0, by decide⟩).ndvi_change_metric =
        zeroRow.ndvi_change_metric ∧
    (((measure_impact [zeroRow] 1).2).get ⟨0, by decide⟩).ghost_risk_score =
        zeroRow.ghost_risk_score ∧
    (∃ r ∈ [zeroRow],
      (toFinalRow (coerceFill zeroRow)).total_loan_usd = some (r.total_loan_usd.getD 0) ∧
      (toFinalRow (coerceFill zeroRow)).funded_capacity_mw =
        some (r.funded_capacity_mw.getD 0)) :=
  measure_impact_frame_effect [zeroRow] 1 0 (by decide) (by decide)
    (toFinalRow (coerceFill zeroRow)) (by decide)

/-! ## Claim C8 -/

/-- Claim C8 is refuted as stated: `load_data` strips *after* replacing
spaces, so the name ` Country ` normalizes to `_country_` — its
surrounding spaces become surrounding separator characters instead of
being trimmed away — while the spec's trim-then-replace reading would
give `country`. -/
theorem normalize_strip_after_replace_counterexample :
    normalizeCol ((" Country ").toList) = ("_country_").toList ∧
    normalizeColSpec ((" Country ").toList) = ("country").toList ∧
    ("_country_").toList ≠ ("country").toList := by
  refine ⟨?_, ?_, ?_⟩ <;> decide

/-- Claim C8 (amended): every column name of the table `load_data` returns
is the input name lower-cased, with every space replaced by an underscore,
and only then whitespace-trimmed — applied uniformly to every column of
every input table.  Because the replacement precedes the trim, surrounding
spaces become surrounding underscores rather than disappearing; the
normalized name contains no space at all. -/
theorem load_data_col_normalization (cols : List (List Char)) (c : List Char)
    (hc : c ∈ cols) :
    normalizeCol c ∈ load_data_cols cols ∧
    normalizeCol c = trimName (replaceSpaces (lowerName c)) ∧
    ' ' ∉ normalizeCol c := by
  refine ⟨List.mem_map_of_mem _ hc, rfl, ?_⟩
  intro hsp
  simp only [normalizeCol, trimName] at hsp
  have h1 := List.mem_reverse.mp hsp
  have h2 := (List.dropWhile_sublist _).subset h1
  have h3 := List.mem_reverse.mp h2
  have h4 : ' ' ∈ replaceSpaces (lowerName c) := (List.dropWhile_sublist _).subset h3
  obtain ⟨d, _, hde⟩ := List.mem_map.mp h4
  by_cases hd : d = ' '
  · simp [hd] at hde
  · rw [if_neg hd] at hde
    exact hd hde

/-- Witness for C8 (amended): the lone column ` Country ` of a table is
normalized uniformly and its normal form contains no space. -/
theorem load_data_col_normalization_witness :
    normalizeCol ((" Country ").toList) ∈ load_data_cols [(" Country ").toList] ∧
    normalizeCol ((" Country ").toList) =
      trimName (replaceSpaces (lowerName ((" Country ").toList))) ∧
    ' ' ∉ normalizeCol ((" Country ").toList) :=
  load_data_col_normalization [(" Country ").toList] ((" Country ").toList) (by decide)

end GreenGhost
